/-
Verification of the multi-source literature aggregation pipeline
(`MultiSourceManager`, `DataSource` family, `WebSearchSource`, `ZoteroSource`,
`EnhancedLiteratureAgent`) as a shallow embedding in Lean 4.

Modelling conventions:
- Python `str.lower()` / `str.strip()` / `needle in hay` are embedded as
  character-wise `strLower`, two-sided `strTrim`, and contiguous-substring
  `strIn` over the character list of the string.
- Python dicts carrying string values are association lists (`PyDict`) with
  Python's assignment semantics (in-place overwrite of an existing key,
  append otherwise) and first-match lookup.
- `async` fan-out with `asyncio.gather(..., return_exceptions=True)` is
  embedded by giving every source a `search` function returning
  `Except String (List SearchResult)`: an `Except.error` value is a raised
  exception captured by the gather, an `Except.ok` value is a normal result.
- Python float scores are embedded as the IEEE-754 binary64 values the
  program computes, represented exactly as naturals scaled by `2^53`: the
  additive contributions 2.0 / 1.0 / 0.5 are exact doubles and accumulate
  exactly (in half-units), the weight literals 1.2 / 1.1 denote the nearest
  doubles `5404319552844595/2^52` and `4953959590107546/2^52`, and the one
  multiplication `score *= weight` is rounded to nearest, ties to even,
  overflowing to the single value +∞ — exactly IEEE multiplication.  Order
  and ties of the scaled naturals are therefore order and ties of the
  program's float scores (fidelity caveat: for base scores of at least 2^53
  half-units — titles plus upwards of 10^15 matching authors, beyond any
  representable Python list — the program's float accumulation of the base
  itself would round, which is not modelled).
- Python's `sorted(..., key=f, reverse=True)` is a stable descending sort;
  it is embedded as `List.insertionSort` with the relation
  `fun a b => f b ≤ f a`, which is the unique stable sort for that order.
-/
import Mathlib

namespace AgenticAI

/-! ### Python string primitives -/

/-- Embedding of Python `str.lower()` (character-wise lowering). -/
def strLower (s : String) : String := ⟨s.data.map Char.toLower⟩

/-- Embedding of Python `str.strip()` (drop whitespace on both ends). -/
def strTrim (s : String) : String :=
  ⟨((s.data.dropWhile Char.isWhitespace).reverse.dropWhile Char.isWhitespace).reverse⟩

/-- Embedding of Python `needle in hay` for strings: `needle` occurs as a
contiguous substring of `hay` (the empty needle always occurs). -/
def strIn (needle hay : String) : Bool :=
  hay.data.tails.any (fun t => needle.data.isPrefixOf t)

/-! ### Python dicts with string values -/

/-- A Python dict with string keys and string values, in insertion order. -/
abbrev PyDict := List (String × String)

/-- Python `d.get(k)`: value of the (unique) entry with key `k`, if any. -/
def dictGet (d : PyDict) (k : String) : Option String :=
  match d with
  | [] => none
  | (k', v') :: t => if k' == k then some v' else dictGet t k

/-- Python `d.get(k, default)`. -/
def dictGetD (d : PyDict) (k default : String) : String :=
  (dictGet d k).getD default

/-- Python `d[k] = v`: overwrite the entry in place if the key exists,
append a fresh entry otherwise. -/
def dictSet (d : PyDict) (k v : String) : PyDict :=
  match d with
  | [] => [(k, v)]
  | (k', v') :: t => if k' == k then (k, v) :: t else (k', v') :: dictSet t k v

/-! ### Data model: `SearchResult` (src/integrations/base_source.py) -/

/-- `SearchResult` dataclass from `base_source.py`.  Timestamps are modelled
as strings (their value is never inspected by the verified code paths);
`metadata` keeps the `Optional` shape because `search_aggregated` explicitly
tests `result.metadata is None`. -/
structure SearchResult where
  title : String
  authors : List String
  abstract : String
  url : String
  source : String
  publication_date : Option String := none
  journal : Option String := none
  doi : Option String := none
  citation_count : Option Int := none
  keywords : List String := []
  metadata : Option PyDict := none
deriving DecidableEq

/-- The dedup key `result.title.lower().strip()` used by both
`MultiSourceManager._deduplicate_results` and
`WebSearchSource._deduplicate_results`. -/
def dedup_key (r : SearchResult) : String := strTrim (strLower r.title)

/-- `result.metadata.get('data_source')` guarded by `result.metadata` being
a dict (`None` yields no value). -/
def getDataSource (r : SearchResult) : Option String :=
  match r.metadata with
  | some m => dictGet m "data_source"
  | none => none

/-! ### The manager (src/integrations/multi_source_manager.py) -/

/-- A registered data source, seen through the interface the manager uses.
`search` models the async `DataSource.search`: `Except.error` is a raised
exception, `Except.ok` a returned result list. -/
structure SourceObj where
  search : String → Nat → Except String (List SearchResult)

/-- `MultiSourceManager` state: the `self.sources` mapping in insertion
(registration) order. -/
structure Manager where
  sources : List (String × SourceObj)

/-- `MultiSourceManager.search_all` (lines 61-95) on an explicit source list:
gather with `return_exceptions=True` turns each raised exception into an
empty list for that source; every registered source gets an entry. The outer
`try/except` in the Python code is unreachable (the gather cannot raise once
`return_exceptions=True` is set) and is therefore not represented. -/
def search_all_list (sources : List (String × SourceObj)) (query : String)
    (limit_per_source : Nat) : List (String × List SearchResult) :=
  sources.map (fun p =>
    (p.1, match p.2.search query limit_per_source with
          | .ok rs => rs
          | .error _ => []))

/-- `MultiSourceManager.search_all`. -/
def search_all (m : Manager) (query : String) (limit_per_source : Nat) :
    List (String × List SearchResult) :=
  search_all_list m.sources query limit_per_source

/-- Line 109: `max(1, total_limit // len(self.sources)) if self.sources else 0`. -/
def limit_per_source (m : Manager) (total_limit : Nat) : Nat :=
  if m.sources.isEmpty then 0 else max 1 (total_limit / m.sources.length)

/-- Lines 117-122: stamp one result with the contributing source's registered
name (`metadata['data_source'] = source_name`, after replacing a `None`
metadata by `{}`). -/
def stampResult (source_name : String) (r : SearchResult) : SearchResult :=
  let md := match r.metadata with
            | none => []
            | some m => m
  { r with metadata := some (dictSet md "data_source" source_name) }

/-- Lines 115-122: flatten the per-source mapping (iterated in insertion
order) into one list, stamping every result. -/
def flatten_stamp (source_results : List (String × List SearchResult)) :
    List SearchResult :=
  source_results.flatMap (fun p => p.2.map (stampResult p.1))

/-- Loop body of `MultiSourceManager._deduplicate_results` (lines 130-143),
with the `seen_titles` set carried explicitly.  Note: no emptiness test on
the key — an empty trimmed title is deduplicated like any other key. -/
def dedupGo (seen : List String) : List SearchResult → List SearchResult
  | [] => []
  | r :: rest =>
    if seen.contains (dedup_key r) then dedupGo seen rest
    else r :: dedupGo (dedup_key r :: seen) rest

/-- `MultiSourceManager._deduplicate_results`. -/
def deduplicate_results (results : List SearchResult) : List SearchResult :=
  dedupGo [] results

/-- The excess of a natural's bit length over 53: the number of low bits an
IEEE binary64 significand cannot hold.  Computed by a bounded scan (exact
for `n < 2^1079`; larger inputs are handled before this is consulted). -/
def excessBits (n : ℕ) : ℕ :=
  (List.range 1026).foldl (fun acc s => if 2 ^ (53 + s) ≤ n then s + 1 else acc) 0

/-- Round-to-nearest, ties-to-even, of the rational `n / 2^53` to an
IEEE-754 binary64, returned scaled by `2^53` (so the result is again a
natural).  Values of at least `2^1024` overflow to +∞, represented by the
single sentinel `2^1077 = 2^1024 · 2^53`, which compares above every finite
double and ties with itself — exactly the comparison behaviour of `inf`.
Subnormals cannot arise (the smallest positive score is about 0.55). -/
def roundDouble (n : ℕ) : ℕ :=
  if n < 2 ^ 53 then n
  else if 2 ^ 1078 ≤ n then 2 ^ 1077
  else
    let shift := excessBits n
    let q := n / 2 ^ shift
    let r := n % 2 ^ shift
    let half := 2 ^ (shift - 1)
    let q' := if half < r then q + 1
              else if r < half then q
              else q + q % 2
    min (q' * 2 ^ shift) (2 ^ 1077)

/-- The hard-coded `source_weights` table of `_sort_results` (lines 167-174):
`dict.get(data_source, 1.0)` over distinct keys is an if-chain.  Each weight
is the IEEE binary64 the Python literal denotes, scaled by `2^52`: 1.0 is
exact (`2^52`), while 1.2 and 1.1 are the nearest doubles
`5404319552844595/2^52` (just below 1.2) and `4953959590107546/2^52` (just
above 1.1). -/
def source_weight (data_source : String) : ℕ :=
  if data_source == "web_search" then 2 ^ 52
  else if data_source == "local_knowledge" then 5404319552844595
  else if data_source == "zotero" then 4953959590107546
  else 2 ^ 52

/-- `relevance_score` closure inside `_sort_results` (lines 150-176),
returning the IEEE binary64 score the program computes, scaled by `2^53`.
The additive terms 2.0 / 1.0 / 0.5 are exact doubles and their running sum
is exact in the program for any representable author list, so the base is
accumulated exactly in half-units (4 / 2 / 1); the single float operation
that rounds, `score *= weight`, is `roundDouble` of the exact product
(half-units × the `2^52`-scaled weight = the product scaled by `2^53`).
The abstract term is guarded by the truthiness test
`if result.abstract and ...`: an empty abstract contributes nothing even
when the query is a substring of it. -/
def relevance_score (query_lower : String) (r : SearchResult) : ℕ :=
  let s1 : ℕ := if strIn query_lower (strLower r.title) then 4 else 0
  let s2 : ℕ := s1 +
    (if r.abstract != "" && strIn query_lower (strLower r.abstract) then 2 else 0)
  let s3 : ℕ := s2 + r.authors.countP (fun a => strIn query_lower (strLower a))
  let data_source := match r.metadata with
                     | some m => dictGetD m "data_source" ""
                     | none => ""
  roundDouble (s3 * source_weight data_source)

/-- `MultiSourceManager._sort_results`: Python's stable
`sorted(results, key=relevance_score, reverse=True)`, embedded as the stable
insertion sort for the descending-score order. -/
def sort_results (results : List SearchResult) (query : String) :
    List SearchResult :=
  results.insertionSort
    (fun a b => relevance_score (strLower query) b ≤ relevance_score (strLower query) a)

/-- `MultiSourceManager.search_aggregated` (lines 97-128). -/
def search_aggregated (m : Manager) (query : String) (total_limit : Nat) :
    List SearchResult :=
  let lps := limit_per_source m total_limit
  let source_results := search_all m query lps
  let all_results := flatten_stamp source_results
  let unique_results := deduplicate_results all_results
  let sorted_results := sort_results unique_results query
  sorted_results.take total_limit

/-! ### First claim: limit invariant -/

/-- **C1.** For every query, every `totalLimit ≥ 0` (limits are naturals in
this embedding) and every set of per-source search outputs, the list returned
by `MultiSourceManager.search_aggregated(query, totalLimit)` has length at
most `totalLimit`. -/
theorem search_aggregated_length_le (m : Manager) (query : String)
    (total_limit : Nat) :
    (search_aggregated m query total_limit).length ≤ total_limit := by
  unfold search_aggregated
  simp only []
  exact (List.length_take _ _).trans_le (min_le_left _ _)

/-! ### WebSearchSource (src/integrations/web_search.py) -/

/-- The three web backends fanned out to by `WebSearchSource.search`. -/
inductive Backend where
  | semantic_scholar
  | arxiv
  | crossref
deriving DecidableEq

/-- The backend-enable flags of the merged `WebSearchSource` config
(defaults are all `True`; a user config may override them). -/
structure WebConfig where
  semantic_scholar_enabled : Bool
  arxiv_enabled : Bool
  crossref_enabled : Bool
deriving DecidableEq

/-- Whether a given backend is enabled by the config. -/
def backendEnabled (cfg : WebConfig) : Backend → Bool
  | .semantic_scholar => cfg.semantic_scholar_enabled
  | .arxiv => cfg.arxiv_enabled
  | .crossref => cfg.crossref_enabled

/-- The backend requests issued by `WebSearchSource.search` (lines 48-62):
one task per enabled backend, each asked for `limit // 3` results; disabled
backends contribute no task.  The divisor is the literal `3` in the source,
independent of how many backends are enabled. -/
def webSearchRequests (cfg : WebConfig) (query : String) (limit : Nat) :
    List (Backend × String × Nat) :=
  (if cfg.semantic_scholar_enabled then [(Backend.semantic_scholar, query, limit / 3)] else []) ++
  (if cfg.arxiv_enabled then [(Backend.arxiv, query, limit / 3)] else []) ++
  (if cfg.crossref_enabled then [(Backend.crossref, query, limit / 3)] else [])

/-- Modelled from the spec: the number of enabled backends, which the spec's
"partitions the requested `limit` roughly evenly across enabled backends"
takes as the divisor.  Used only to compare the spec's formula against the
code's fixed divisor. -/
def enabled_backend_count (cfg : WebConfig) : Nat :=
  (if cfg.semantic_scholar_enabled then 1 else 0) +
  (if cfg.arxiv_enabled then 1 else 0) +
  (if cfg.crossref_enabled then 1 else 0)

/-- Loop body of `WebSearchSource._deduplicate_results` (lines 327-343):
keep a result only if its key is unseen AND non-empty
(`if title_key not in seen_titles and title_key:`). -/
def webDedupGo (seen : List String) : List SearchResult → List SearchResult
  | [] => []
  | r :: rest =>
    if !seen.contains (dedup_key r) && dedup_key r != "" then
      r :: webDedupGo (dedup_key r :: seen) rest
    else webDedupGo seen rest

/-- The sort key `x.citation_count or 0` (line 341): a missing count (and a
zero count) both give `0`. -/
def citKey (r : SearchResult) : Int := r.citation_count.getD 0

/-- `WebSearchSource._deduplicate_results`: unique-by-title filter followed
by the stable in-place `list.sort(key=..., reverse=True)` on citation count. -/
def web_deduplicate_results (results : List SearchResult) : List SearchResult :=
  (webDedupGo [] results).insertionSort (fun a b => citKey b ≤ citKey a)

/-! ### Health check (base_source.py lines 82-95, manager lines 209-220) -/

/-- A Python value stored into the health mapping: either an actual `bool`,
or the coroutine object produced by calling an `async def` without awaiting
it.  Awaiting the coroutine (running it) would produce the `Bool`. -/
inductive HealthValue where
  | bool (b : Bool)
  | coroutine (run : Unit → Bool)

/-- Whether a `HealthValue` is an actual boolean. -/
def HealthValue.isBool : HealthValue → Bool
  | .bool _ => true
  | .coroutine _ => false

/-- `DataSource.health_check` is `async`: *calling* it (as the manager does,
without `await`) merely builds a coroutine object; the body — the trivial
`search("test", limit=1)` with exceptions mapped to `False` — only runs if
the coroutine is awaited. -/
def DataSource_health_check (s : SourceObj) : HealthValue :=
  .coroutine (fun _ =>
    match s.search "test" 1 with
    | .ok _ => true
    | .error _ => false)

/-- `MultiSourceManager.health_check` (lines 209-220): stores
`source.health_check()` — the unawaited coroutine — for every registered
source.  The surrounding `try/except` never fires, since constructing a
coroutine raises nothing. -/
def manager_health_check (m : Manager) : List (String × HealthValue) :=
  m.sources.map (fun p => (p.1, DataSource_health_check p.2))

/-! ### Manager construction (lines 42-59) -/

/-- `MultiSourceManager._initialize_sources`: the per-entry body (type
lookup in `source_types`, adapter construction, `validate_config`,
exception-to-skip) is abstracted as `buildSource`; an entry yielding `none`
is skipped (invalid type, failed validation, or raised exception), an entry
yielding `some` is registered under its name.  Iteration follows the
insertion order of the config mapping. -/
def initializeSources (buildSource : String × PyDict → Option (String × SourceObj))
    (config : List (String × PyDict)) : List (String × SourceObj) :=
  config.filterMap buildSource

/-! ### ZoteroSource (src/integrations/zotero_source.py) -/

/-- A raised Python exception, as far as the Zotero code paths observe it. -/
inductive PyErr where
  | attributeError
  | other (msg : String)
deriving DecidableEq

/-- `ZoteroSource` attributes after `__init__` (lines 18-34).  The
constructor calls `super().__init__(config)`, so the base `DataSource.name`
receives the *config dict* as its `name` positional argument and the base
`config` attribute stays empty.  No `timeout` attribute is ever assigned
anywhere in the class, which is modelled by an `Option` field that
construction leaves `none`; reading it raises `AttributeError`. -/
structure ZoteroSource where
  name_value : PyDict
  config : PyDict
  api_key : String
  user_id : Option String
  group_id : Option String
  base_url : String
  timeout : Option Nat

/-- `ZoteroSource.__init__` on a config dict. -/
def ZoteroSource.ofConfig (config : PyDict) : ZoteroSource :=
  { name_value := config
    config := []
    api_key := dictGetD config "api_key" ""
    user_id := dictGet config "user_id"
    group_id := dictGet config "group_id"
    base_url := "https://api.zotero.org"
    timeout := none }

/-- Attribute read `self.timeout`: `AttributeError` when never assigned. -/
def ZoteroSource.getTimeout (s : ZoteroSource) : Except PyErr Nat :=
  match s.timeout with
  | some t => .ok t
  | none => .error .attributeError

/-- Python truthiness of an optional string attribute. -/
def truthy : Option String → Bool
  | none => false
  | some s => s != ""

/-- `ZoteroSource.validate_config` (lines 36-42). -/
def zotero_validate_config (s : ZoteroSource) : Bool :=
  if s.api_key == "" then false
  else if !truthy s.user_id && !truthy s.group_id then false
  else true

/-- `ZoteroSource.search` (lines 44-88).  The `try` block first reads
`self.timeout` (to build the client session); everything after that read —
URL construction, the HTTP round-trip, item parsing — is abstracted as
`rest`, invoked with the timeout value.  The catch-all `except` maps any
raised exception to `[]`. -/
def zotero_search (s : ZoteroSource)
    (rest : Nat → String → Nat → Except PyErr (List SearchResult))
    (query : String) (limit : Nat) : List SearchResult :=
  if !zotero_validate_config s then []
  else
    match s.getTimeout with
    | .error _ => []
    | .ok t =>
      match rest t query limit with
      | .ok rs => rs
      | .error _ => []

/-- `ZoteroSource.get_by_id` (lines 90-125), modelled like `zotero_search`:
the `try` block reads `self.timeout` first; the catch-all maps any raised
exception to `None`. -/
def zotero_get_by_id (s : ZoteroSource)
    (rest : Nat → String → Except PyErr (Option SearchResult))
    (item_id : String) : Option SearchResult :=
  if !zotero_validate_config s then none
  else
    match s.getTimeout with
    | .error _ => none
    | .ok t =>
      match rest t item_id with
      | .ok r => r
      | .error _ => none

/-! ### EnhancedLiteratureAgent.handle (src/agents/enhanced_literature_agent.py) -/

/-- First-occurrence-order distinct values, as pandas
`df["data_source"].unique().tolist()` produces them. -/
def listUniqueGo (seen : List String) : List String → List String
  | [] => []
  | x :: rest =>
    if seen.contains x then listUniqueGo seen rest
    else x :: listUniqueGo (x :: seen) rest

/-- `Series.unique().tolist()`. -/
def listUnique (l : List String) : List String := listUniqueGo [] l

/-- The `data_source` column value produced by
`EnhancedLiteratureAgent._search_result_to_record` (line 168):
`result.metadata.get("data_source", result.source) if result.metadata else result.source`. -/
def record_data_source (r : SearchResult) : String :=
  match r.metadata with
  | some m => dictGetD m "data_source" r.source
  | none => r.source

/-- The data-collection control flow of `EnhancedLiteratureAgent.handle`
(lines 52-138), restricted to what it computes for `data_sources_used`.
The baseline Nobel Prize fetch (`src.data.nobel_fetch`, an external
collaborator per the spec) is a parameter: `Except.error` is a raised fetch
exception, caught by the `try/except` of step 1.  Step 2 runs only when a
multi-source manager is configured AND the task query is truthy; its own
`try/except` cannot fire in this pure model, and the `data_sources` column
of the converted records is appended via pandas `unique()`.  File I/O
(directory creation, CSV, report) is modelled as succeeding.  The function
returns `Except.ok`, reflecting that no exception escapes `handle` on these
paths. -/
def handle_run (fetch : Except Unit (List Unit)) (mgr : Option Manager)
    (query : Option String) (limit : Nat) : Except Unit (List String) :=
  let ds0 : List String :=
    match fetch with
    | .ok _ => ["nobel_prize"]
    | .error _ => []
  let ds1 : List String :=
    match mgr, query with
    | some m, some q =>
      if q != "" then
        let rs := search_aggregated m q limit
        if rs.isEmpty then ds0
        else ds0 ++ listUnique (rs.map record_data_source)
      else ds0
    | _, _ => ds0
  .ok ds1

/-! ### Definitions modelled from the spec's words (for refinement claims) -/

/-- Modelled from the spec (claim C3's weight table, read as exact decimal
numbers): 1.0 / 1.2 / 1.1 scaled by 10. -/
def claimed_source_weight (data_source : String) : Int :=
  if data_source == "web_search" then 10
  else if data_source == "local_knowledge" then 12
  else if data_source == "zotero" then 11
  else 10

/-- Modelled from the spec (claim C3's formula, read as exact decimal
arithmetic, scaled by 100): the relevance score as the claim states it —
the abstract term is `1.0` whenever the query is a substring of the
lower-cased abstract, with no non-emptiness guard, and the weights are the
exact values 1.0 / 1.2 / 1.1. -/
def claimed_relevance_score (query_lower : String) (r : SearchResult) : Int :=
  ((if strIn query_lower (strLower r.title) then 20 else 0) +
   (if strIn query_lower (strLower r.abstract) then 10 else 0) +
   ((r.authors.countP (fun a => strIn query_lower (strLower a)) : ℕ) : Int) * 5) *
  claimed_source_weight (match r.metadata with
                         | some m => dictGetD m "data_source" ""
                         | none => "")

/-- Modelled from the spec (claim C3): the ordering the claim prescribes —
the stable descending sort by `claimed_relevance_score`. -/
def claimed_sort_results (results : List SearchResult) (query : String) :
    List SearchResult :=
  results.insertionSort
    (fun a b =>
      claimed_relevance_score (strLower query) b ≤ claimed_relevance_score (strLower query) a)

/-! ### Helper lemmas -/

/-- Looking up a key just written returns the written value. -/
theorem dictGet_dictSet : ∀ (d : PyDict) (k v : String),
    dictGet (dictSet d k v) k = some v
  | [], k, v => by simp [dictSet, dictGet]
  | (k', v') :: t, k, v => by
    by_cases h : k' == k
    · simp [dictSet, dictGet, h]
    · simp only [dictSet, dictGet, h, if_neg, Bool.false_eq_true, not_false_eq_true,
        if_false]
      exact dictGet_dictSet t k v

/-- Stamping a result sets its `data_source` metadata to the source name. -/
theorem getDataSource_stamp (name : String) (r : SearchResult) :
    getDataSource (stampResult name r) = some name := by
  unfold getDataSource stampResult
  cases r.metadata <;> simp [dictGet_dictSet]

/-- First-occurrence semantics of the manager's dedup loop: among the
entries sharing one dedup key, the output keeps exactly the first one of the
input (none at all if the key was already seen). -/
theorem dedupGo_filter (k : String) :
    ∀ (seen : List String) (rs : List SearchResult),
    (dedupGo seen rs).filter (fun r => dedup_key r == k) =
      if k ∈ seen then []
      else (rs.filter (fun r => dedup_key r == k)).take 1
  | seen, [] => by
    simp [dedupGo]
  | seen, r :: rest => by
    by_cases hseen : dedup_key r ∈ seen
    · rw [dedupGo, if_pos (by simpa using hseen), dedupGo_filter k seen rest]
      by_cases hk : k ∈ seen
      · simp [hk]
      · have hne : (dedup_key r == k) = false := by
          simp only [beq_eq_false_iff_ne]
          rintro rfl
          exact hk hseen
        simp [hk, List.filter_cons, hne]
    · rw [dedupGo, if_neg (by simpa using hseen), List.filter_cons,
        dedupGo_filter k (dedup_key r :: seen) rest]
      by_cases hrk : dedup_key r = k
      · subst hrk
        simp [hseen, List.filter_cons]
      · have hne : (dedup_key r == k) = false := beq_eq_false_iff_ne.mpr hrk
        have hkd : ¬ (k = dedup_key r) := fun h => hrk h.symm
        simp [hne, hkd, List.mem_cons, List.filter_cons]

/-- Every survivor of the web dedup loop has a non-empty trimmed title. -/
theorem mem_webDedupGo :
    ∀ (seen : List String) (rs : List SearchResult) (r : SearchResult),
    r ∈ webDedupGo seen rs → dedup_key r ≠ ""
  | _, [], _, h => absurd h (List.not_mem_nil _)
  | seen, r0 :: rest, r, h => by
    rw [webDedupGo] at h
    split at h
    · rcases List.mem_cons.mp h with rfl | h'
      · rename_i hcond
        have := (Bool.and_eq_true _ _).mp hcond |>.2
        simpa [bne_iff_ne] using this
      · exact mem_webDedupGo _ rest r h'
    · exact mem_webDedupGo seen rest r h

/-- Stability of insertion into a list, expressed through filtering by an
exact score value: the inserted element lands in front of its ties and
behind strictly larger scores. -/
theorem filter_orderedInsert {α β : Type} [LinearOrder β] (f : α → β) (s : β) (x : α) :
    ∀ (L : List α),
    ((L.orderedInsert (fun a b => f b ≤ f a) x).filter (fun y => decide (f y = s))) =
      if f x = s then x :: L.filter (fun y => decide (f y = s))
      else L.filter (fun y => decide (f y = s))
  | [] => by
    by_cases hx : f x = s <;> simp [List.orderedInsert, hx]
  | b :: l => by
    by_cases hxb : f b ≤ f x
    · rw [List.orderedInsert, if_pos hxb, List.filter_cons]
      by_cases hx : f x = s <;> simp [hx]
    · rw [List.orderedInsert, if_neg hxb, List.filter_cons]
      by_cases hx : f x = s
      · have hb : ¬ (f b = s) := by
          intro hb
          exact hxb (le_of_eq (hb.trans hx.symm))
        rw [filter_orderedInsert f s x l]
        simp [hx, hb, List.filter_cons]
      · rw [filter_orderedInsert f s x l]
        by_cases hb : f b = s <;> simp [hx, hb, List.filter_cons]

/-- Stability of the descending insertion sort: the elements attaining any
given score value appear in the output exactly in their input order. -/
theorem filter_insertionSort {α β : Type} [LinearOrder β] (f : α → β) (s : β) :
    ∀ (l : List α),
    ((l.insertionSort (fun a b => f b ≤ f a)).filter (fun y => decide (f y = s))) =
      l.filter (fun y => decide (f y = s))
  | [] => rfl
  | x :: l => by
    rw [List.insertionSort, filter_orderedInsert f s x (l.insertionSort _),
      filter_insertionSort f s l, List.filter_cons]
    by_cases hx : f x = s <;> simp [hx]

/-- `search_all` keyed lookup: with distinct registered names, the entry of
a registered source is its own search outcome (results, or `[]` if it
raised). -/
theorem search_all_list_lookup :
    ∀ (sources : List (String × SourceObj)) (q : String) (lim : Nat)
      (name : String) (src : SourceObj),
    (sources.map Prod.fst).Nodup → (name, src) ∈ sources →
    (search_all_list sources q lim).lookup name =
      some (match src.search q lim with
            | .ok rs => rs
            | .error _ => [])
  | [], _, _, _, _, _, hmem => absurd hmem (List.not_mem_nil _)
  | (n0, s0) :: rest, q, lim, name, src, hnd, hmem => by
    rcases List.mem_cons.mp hmem with heq | hmem'
    · obtain ⟨rfl, rfl⟩ := Prod.mk.injEq .. ▸ heq
      simp [search_all_list, List.lookup]
    · have hname : name ≠ n0 := by
        intro h
        subst h
        have : name ∈ rest.map Prod.fst :=
          List.mem_map.mpr ⟨(name, src), hmem', rfl⟩
        exact (List.nodup_cons.mp (by simpa using hnd)).1 this
      have hbeq : (name == n0) = false := by
        rcases h : name == n0 with _ | _
        · rfl
        · exact absurd (eq_of_beq h) hname
      rw [search_all_list, List.map_cons, List.lookup, hbeq]
      exact search_all_list_lookup rest q lim name src
        (List.nodup_cons.mp (by simpa using hnd)).2 hmem'

/-! ### Concrete instances used by scenarios, counterexamples and witnesses -/

/-- The result returned by source "A" in the spec's overlapping-titles
scenario. -/
def rA : SearchResult :=
  { title := "Deep Learning Survey", authors := [], abstract := "", url := "",
    source := "A", metadata := some [] }

/-- The result returned by source "B": same title up to case and a trailing
space. -/
def rB : SearchResult :=
  { title := "deep learning survey ", authors := [], abstract := "", url := "",
    source := "B", metadata := some [] }

/-- Source "A": always returns `[rA]`. -/
def srcA : SourceObj := ⟨fun _ _ => .ok [rA]⟩

/-- Source "B": always returns `[rB]`. -/
def srcB : SourceObj := ⟨fun _ _ => .ok [rB]⟩

/-- Manager with "A" registered before "B". -/
def mAB : Manager := ⟨[("A", srcA), ("B", srcB)]⟩

/-- The surviving aggregated entry of the scenario: `rA` stamped with
`data_source = "A"`. -/
def rA_stamped : SearchResult := { rA with metadata := some [("data_source", "A")] }

/-- A result with empty abstract (and a title, so the empty query matches
the title but the code's abstract guard fires). -/
def rEmptyAbs : SearchResult :=
  { title := "t", authors := [], abstract := "", url := "", source := "s",
    metadata := some [] }

/-- A result with a non-empty abstract. -/
def rFullAbs : SearchResult :=
  { title := "u", authors := [], abstract := "a", url := "", source := "s",
    metadata := some [] }

/-- A result whose title is blank after trimming. -/
def rBlankTitle : SearchResult :=
  { title := " ", authors := [], abstract := "", url := "", source := "s",
    metadata := some [] }

/-- A second, distinct result whose title also trims to the empty string. -/
def rBlankTitle2 : SearchResult :=
  { title := "  ", authors := [], abstract := "x", url := "", source := "s",
    metadata := some [] }

/-- A result returned by the healthy source of the isolation scenario. -/
def rGood : SearchResult :=
  { title := "g", authors := [], abstract := "", url := "", source := "good",
    metadata := some [] }

/-- A source that raises on every call. -/
def srcBad : SourceObj := ⟨fun _ _ => .error "boom"⟩

/-- A source that returns `[rGood]` on every call. -/
def srcGood : SourceObj := ⟨fun _ _ => .ok [rGood]⟩

/-- Manager with one failing and one healthy source. -/
def mBadGood : Manager := ⟨[("bad", srcBad), ("good", srcGood)]⟩

/-- Manager with a single registered source, for the health-check bug. -/
def mHealth : Manager := ⟨[("web", srcGood)]⟩

/-- A `WebSearchSource` config with only the arXiv backend enabled. -/
def cfgOnlyArxiv : WebConfig := ⟨false, true, false⟩

/-- A `local_knowledge` result with title, abstract and 5 authors matching
query "a": exact decimal score (2 + 1 + 2.5) × 1.2 = 6.6, float score
5.5 × fl(1.2) = 6.5999999999999996. -/
def rLocal5 : SearchResult :=
  { title := "a", authors := ["a", "a", "a", "a", "a"], abstract := "a",
    url := "", source := "local_knowledge",
    metadata := some [("data_source", "local_knowledge")] }

/-- A `zotero` result with title, abstract and 6 authors matching query
"a": exact decimal score (2 + 1 + 3) × 1.1 = 6.6 — tying `rLocal5` in
exact arithmetic — but float score 6.0 × fl(1.1) = 6.6000000000000005. -/
def rZot6 : SearchResult :=
  { title := "a", authors := ["a", "a", "a", "a", "a", "a"], abstract := "a",
    url := "", source := "zotero",
    metadata := some [("data_source", "zotero")] }

set_option maxRecDepth 40000 in
/-- Fidelity check of the float scoring model: the cross-weight pair that
ties at 6.6 in exact decimal arithmetic is strictly ordered in IEEE double
arithmetic (6.5999999999999996 < 6.6000000000000005), and the model
reproduces both facts, down to the exact scaled significands. -/
theorem relevance_score_cross_weight_rounding :
    claimed_relevance_score "a" rLocal5 = claimed_relevance_score "a" rZot6 ∧
    relevance_score "a" rLocal5 < relevance_score "a" rZot6 ∧
    relevance_score "a" rLocal5 = 59447515081290544 ∧
    relevance_score "a" rZot6 = 59447515081290552 := by
  refine ⟨by decide, by decide, by decide, by decide⟩

/-! ### Claim theorems -/

/-- **C2.** In `search_aggregated`, among flattened results with equal
lower-cased trimmed titles exactly the first in source-registration order
survives deduplication (conjunct 1 states first-occurrence-wins for every
key over any flattened list); stamping sets every result's
`metadata['data_source']` to the contributing source's registered name,
overwriting any pre-existing value (conjunct 2); and in the two-source
scenario (A registered first, titles equal up to case and trailing space)
aggregation with `totalLimit = 10` returns exactly the entry from A, tagged
`data_source = "A"` (conjuncts 3 and 4). -/
theorem dedup_first_wins_and_scenario :
    (∀ (rs : List SearchResult) (k : String),
      (deduplicate_results rs).filter (fun r => dedup_key r == k) =
        (rs.filter (fun r => dedup_key r == k)).take 1) ∧
    (∀ (name : String) (rs : List SearchResult),
      (rs.map (stampResult name)).all (fun r => getDataSource r == some name) = true) ∧
    search_aggregated mAB "deep learning" 10 = [rA_stamped] ∧
    getDataSource rA_stamped = some "A" := by
  refine ⟨fun rs k => ?_, fun name rs => ?_, by decide, by decide⟩
  · simpa using dedupGo_filter k [] rs
  · simp [List.all_map, Function.comp_def, getDataSource_stamp]

set_option maxRecDepth 40000 in
/-- **C3, counterexample.** With the empty query, a result with empty
abstract scores 2.0 in the code (the `if result.abstract and ...` guard
fails) but 3.0 under the claim's formula (the empty query is a substring of
the empty abstract), tying with a full-abstract result that scores 3.0
under both; both scores are exact doubles, so no rounding is involved.  The
code's sort therefore swaps the pair while a stable descending sort by the
claimed score keeps it — the claimed ordering is not the code's ordering. -/
theorem sort_results_claimed_score_cex :
    sort_results [rEmptyAbs, rFullAbs] "" = [rFullAbs, rEmptyAbs] ∧
    claimed_relevance_score (strLower "") rEmptyAbs =
      claimed_relevance_score (strLower "") rFullAbs ∧
    claimed_sort_results [rEmptyAbs, rFullAbs] "" = [rEmptyAbs, rFullAbs] := by
  refine ⟨by decide, by decide, by decide⟩

/-- **C3, amended.** `_sort_results` stably sorts by descending
`relevance_score` — the IEEE binary64 score the program computes, with the
abstract term contributing only when the abstract is non-empty (Python
truthiness guard) and the weight multiplication rounded to nearest-even:
the output is a permutation of the input (conjunct 1), descending in the
double score (conjunct 2), and stable — the elements attaining any fixed
double score keep their input order (conjunct 3). -/
theorem sort_results_spec (query : String) (rs : List SearchResult) :
    List.Perm (sort_results rs query) rs ∧
    (sort_results rs query).Pairwise
      (fun a b => relevance_score (strLower query) b ≤ relevance_score (strLower query) a) ∧
    (∀ s : ℕ,
      (sort_results rs query).filter
          (fun r => decide (relevance_score (strLower query) r = s)) =
        rs.filter (fun r => decide (relevance_score (strLower query) r = s))) := by
  refine ⟨List.perm_insertionSort _ rs, ?_, fun s => filter_insertionSort _ s rs⟩
  haveI : IsTotal SearchResult
      (fun a b => relevance_score (strLower query) b ≤ relevance_score (strLower query) a) :=
    ⟨fun a b => le_total _ _⟩
  haveI : IsTrans SearchResult
      (fun a b => relevance_score (strLower query) b ≤ relevance_score (strLower query) a) :=
    ⟨fun _ _ _ h1 h2 => le_trans h2 h1⟩
  exact List.sorted_insertionSort _ rs

/-- **C4.** `search_all` returns an entry for every registered source, in
registration order (conjunct 1); with distinct registered names, a source
that raises on every call is present as the empty list, and a source whose
call returns normally is present with exactly its own results (conjunct 2). -/
theorem search_all_isolation (m : Manager) (q : String) (lim : Nat) :
    ((search_all m q lim).map Prod.fst = m.sources.map Prod.fst) ∧
    (∀ (name : String) (src : SourceObj),
      (m.sources.map Prod.fst).Nodup → (name, src) ∈ m.sources →
      ((∀ q' l', ∃ e, src.search q' l' = Except.error e) →
        (search_all m q lim).lookup name = some []) ∧
      (∀ rs, src.search q lim = Except.ok rs →
        (search_all m q lim).lookup name = some rs)) := by
  refine ⟨by simp [search_all, search_all_list], fun name src hnd hmem => ⟨?_, ?_⟩⟩
  · intro herr
    obtain ⟨e, he⟩ := herr q lim
    have h := search_all_list_lookup m.sources q lim name src hnd hmem
    rw [he] at h
    exact h
  · intro rs hok
    have h := search_all_list_lookup m.sources q lim name src hnd hmem
    rw [hok] at h
    exact h

/-- Witness for C4: a two-source manager where "bad" raises on every call
and "good" returns one result; both entries are present, with the failing
source mapped to the empty list. -/
theorem search_all_isolation_witness :
    (search_all mBadGood "q" 5).lookup "bad" = some [] ∧
    (search_all mBadGood "q" 5).lookup "good" = some [rGood] := by
  have hnd : (mBadGood.sources.map Prod.fst).Nodup := by
    simp [mBadGood]
  refine ⟨((search_all_isolation mBadGood "q" 5).2 "bad" srcBad hnd
      (List.Mem.head _)).1 (fun _ _ => ⟨"boom", rfl⟩),
    ((search_all_isolation mBadGood "q" 5).2 "good" srcGood hnd
      (List.Mem.tail _ (List.Mem.head _))).2 [rGood] rfl⟩

/-- **C5, counterexample.** The manager's `_deduplicate_results` does not
drop blank-title entries: a single result whose title trims to the empty
string survives, and a second such entry is deduplicated away under the
empty-string key. -/
theorem dedup_empty_title_cex :
    dedup_key rBlankTitle = "" ∧
    deduplicate_results [rBlankTitle] = [rBlankTitle] ∧
    deduplicate_results [rBlankTitle, rBlankTitle2] = [rBlankTitle] := by
  refine ⟨by decide, by decide, by decide⟩

/-- **C5, amended.** Only `WebSearchSource._deduplicate_results` drops
entries whose title is empty after trimming (conjunct 1: every survivor has
a non-empty key); `MultiSourceManager._deduplicate_results` instead treats
the empty trimmed title as an ordinary dedup key — the first blank-title
entry survives and later ones are dropped (conjunct 2, the k = "" instance
of first-occurrence-wins). -/
theorem dedup_empty_title_behaviour (rs : List SearchResult) :
    (web_deduplicate_results rs).all (fun r => dedup_key r != "") = true ∧
    (deduplicate_results rs).filter (fun r => dedup_key r == "") =
      (rs.filter (fun r => dedup_key r == "")).take 1 := by
  constructor
  · rw [List.all_eq_true]
    intro r hr
    have hmem : r ∈ webDedupGo [] rs :=
      (List.mem_insertionSort _).1 hr
    simpa [bne_iff_ne] using mem_webDedupGo [] rs r hmem
  · simpa using dedupGo_filter "" [] rs

/-- **C6, counterexample.** With only the arXiv backend enabled,
`WebSearchSource.search` asks it for `7 // 3 = 2` results, not
`7 // 1 = 7` as division by the number of enabled backends would give. -/
theorem web_limit_division_cex :
    webSearchRequests cfgOnlyArxiv "q" 7 = [(Backend.arxiv, "q", 2)] ∧
    enabled_backend_count cfgOnlyArxiv = 1 ∧
    (2 : Nat) ≠ 7 / enabled_backend_count cfgOnlyArxiv := by
  refine ⟨by decide, by decide, by decide⟩

/-- **C6, amended.** `WebSearchSource.search` requests `limit // 3` — the
fixed divisor 3 being the number of *supported* backends, not the number of
enabled ones — from each enabled backend, and issues no request to backends
disabled by configuration. -/
theorem web_requests_per_backend (cfg : WebConfig) (q : String) (limit : Nat) :
    (∀ p ∈ webSearchRequests cfg q limit,
      p.2.2 = limit / 3 ∧ backendEnabled cfg p.1 = true ∧ p.2.1 = q) ∧
    (∀ b, backendEnabled cfg b = true →
      (b, q, limit / 3) ∈ webSearchRequests cfg q limit) := by
  constructor
  · intro p hp
    rw [webSearchRequests] at hp
    rcases List.mem_append.1 hp with hp' | hc
    · rcases List.mem_append.1 hp' with hs | ha
      · split at hs
        next h =>
          rcases List.mem_singleton.1 hs with rfl
          exact ⟨rfl, h, rfl⟩
        next h => exact absurd hs (List.not_mem_nil _)
      · split at ha
        next h =>
          rcases List.mem_singleton.1 ha with rfl
          exact ⟨rfl, h, rfl⟩
        next h => exact absurd ha (List.not_mem_nil _)
    · split at hc
      next h =>
        rcases List.mem_singleton.1 hc with rfl
        exact ⟨rfl, h, rfl⟩
      next h => exact absurd hc (List.not_mem_nil _)
  · intro b hb
    rw [webSearchRequests]
    cases b
    · rw [if_pos (show cfg.semantic_scholar_enabled = true from hb)]
      simp
    · rw [if_pos (show cfg.arxiv_enabled = true from hb)]
      simp
    · rw [if_pos (show cfg.crossref_enabled = true from hb)]
      simp

/-- Witness for C6: with all three backends enabled and `limit = 10`, the
arXiv request carries `10 // 3` and arXiv is enabled; the request is among
those issued. -/
theorem web_requests_per_backend_witness :
    ((Backend.arxiv, "q", (10 : Nat) / 3).2.2 = 10 / 3 ∧
      backendEnabled ⟨true, true, true⟩ (Backend.arxiv, "q", (10 : Nat) / 3).1 = true ∧
      (Backend.arxiv, "q", (10 : Nat) / 3).2.1 = "q") ∧
    (Backend.arxiv, "q", (10 : Nat) / 3) ∈ webSearchRequests ⟨true, true, true⟩ "q" 10 := by
  refine ⟨(web_requests_per_backend ⟨true, true, true⟩ "q" 10).1 _ (by decide),
    (web_requests_per_backend ⟨true, true, true⟩ "q" 10).2 Backend.arxiv (by decide)⟩

/-- **C7.** `MultiSourceManager.health_check` calls the `async`
`DataSource.health_check` without awaiting it, so every stored value is the
unawaited coroutine object — never the annotated boolean: on the concrete
one-source manager the mapping holds a coroutine (conjuncts 1-2), and for
every manager each registered source gets an entry whose value is not a
boolean (conjunct 3). -/
theorem health_check_stores_coroutines :
    manager_health_check mHealth = [("web", DataSource_health_check srcGood)] ∧
    (DataSource_health_check srcGood).isBool = false ∧
    (∀ m : Manager,
      (manager_health_check m).map Prod.fst = m.sources.map Prod.fst ∧
      (manager_health_check m).all (fun p => !p.2.isBool) = true) := by
  refine ⟨rfl, rfl, fun m => ⟨by simp [manager_health_check], ?_⟩⟩
  rw [List.all_eq_true]
  intro p hp
  obtain ⟨q, _, rfl⟩ := List.mem_map.1 hp
  rfl

/-- **C8.** An empty configuration registers zero sources (conjunct 1, for
any per-entry construction outcome); on a manager with no sources,
`limit_per_source` is 0 — the guarded division is never evaluated — and
`search_aggregated("x", 10)` returns `[]` without error (conjuncts 2-3);
with at least one source, `limit_per_source` equals
`max 1 (totalLimit // sourceCount)` (conjunct 4). -/
theorem empty_config_safe :
    (∀ buildSource, initializeSources buildSource [] = []) ∧
    limit_per_source ⟨[]⟩ 10 = 0 ∧
    search_aggregated ⟨[]⟩ "x" 10 = [] ∧
    (∀ (m : Manager) (t : Nat), m.sources ≠ [] →
      limit_per_source m t = max 1 (t / m.sources.length)) := by
  refine ⟨fun _ => rfl, rfl, by decide, fun m t h => ?_⟩
  rw [limit_per_source, if_neg]
  simpa using h

/-- Witness for C8: the two-source manager has a non-empty source list, and
its per-source limit is `max 1 (10 // 2)`. -/
theorem empty_config_safe_witness :
    limit_per_source mBadGood 10 = max 1 (10 / mBadGood.sources.length) :=
  empty_config_safe.2.2.2 mBadGood 10 (by simp [mBadGood])

/-- **C9.** `EnhancedLiteratureAgent.handle` on a task with no query, on an
agent with no multi-source configuration, never raises (the result is
always `Except.ok`), and the returned `data_sources` list is exactly
`["nobel_prize"]` when the baseline fetch succeeds and exactly `[]` when
the baseline fetch raises. -/
theorem handle_baseline_data_sources (rows : List Unit) (limit : Nat) :
    handle_run (Except.ok rows) none none limit = Except.ok ["nobel_prize"] ∧
    handle_run (Except.error ()) none none limit = Except.ok [] :=
  ⟨rfl, rfl⟩

/-- **C10.** For every configuration, `ZoteroSource.search` returns the
empty list and `ZoteroSource.get_by_id` returns `none`, whatever the code
after the `self.timeout` read would do: the constructor passed the config
dict as the base `name` argument (conjunct 3), left the base config empty
(conjunct 4) and never assigned `timeout` (conjunct 5), so the `try` body
fails on reading `self.timeout` and the catch-all returns empty/`None`
(conjuncts 1-2). -/
theorem zotero_always_empty (config : PyDict)
    (rest : Nat → String → Nat → Except PyErr (List SearchResult))
    (restG : Nat → String → Except PyErr (Option SearchResult))
    (q : String) (limit : Nat) (item_id : String) :
    zotero_search (ZoteroSource.ofConfig config) rest q limit = [] ∧
    zotero_get_by_id (ZoteroSource.ofConfig config) restG item_id = none ∧
    (ZoteroSource.ofConfig config).name_value = config ∧
    (ZoteroSource.ofConfig config).config = [] ∧
    (ZoteroSource.ofConfig config).timeout = none := by
  refine ⟨?_, ?_, rfl, rfl, rfl⟩
  · rw [zotero_search]
    split
    · rfl
    · rfl
  · rw [zotero_get_by_id]
    split
    · rfl
    · rfl

end AgenticAI

